import Mathlib

/-!
Shallow embedding of the grid-world reinforcement-learning core of the
repository (QLearningEnvironment in the unnamed qLearning module and
SARSAEnvironment in src/lib/sarsa.ts), together with theorems settling the
frozen claims about it.  JavaScript numbers are idealized as real numbers;
the two optional-number idioms of the source are made explicit: a field that
may be absent becomes an Option, and the JavaScript expression x || d
(which falls back to d when x is absent or zero) becomes jsOrReal / jsOrNat.
Randomness (Math.random draws) is passed in explicitly: each action choice
receives the uniform draw compared against epsilon and the index drawn for a
uniform pick from the valid-action list.
-/

namespace GridRL

noncomputable section

/-- Grid coordinates: 0-indexed integer row and column (type Position of the
qLearning module). -/
structure Position where
  row : Int
  col : Int
  deriving DecidableEq

/-- The four directional actions (type Action of the qLearning module). -/
inductive Action where
  | up
  | down
  | left
  | right
  deriving DecidableEq

/-- Cell classification (type CellType of the qLearning module). -/
inductive CellType where
  | empty
  | start
  | goal
  | hazard
  deriving DecidableEq

/-- Distance metric selector for the directional heuristics. -/
inductive HeuristicMethod where
  | manhattan
  | euclidean
  | chebyshev
  deriving DecidableEq

/-- Reward-normalization method selector. -/
inductive NormalizationMethod where
  | minmax
  | zscore
  deriving DecidableEq

/-- A bonus-reward cell (interface RewardPosition). -/
structure RewardPosition where
  position : Position
  reward : ℝ

/-- The nested rewards object of the configuration. -/
structure Rewards where
  goal : ℝ
  hazard : ℝ
  step : ℝ

/-- Interface QLearningConfig.  Fields that are optional in the source keep
that optionality as an Option. -/
structure QLearningConfig where
  gridSize : Int
  startPosition : Position
  goalPosition : Position
  hazardPositions : List Position
  rewardPositions : Option (List RewardPosition)
  learningRate : ℝ
  discountFactor : ℝ
  epsilon : ℝ
  epsilonDecay : Option ℝ
  minEpsilon : Option ℝ
  rewards : Rewards
  useDirectionalHeuristics : Option Bool
  heuristicWeight : Option ℝ
  heuristicMethod : Option HeuristicMethod
  normalizeRewards : Option Bool
  normalizationMethod : Option NormalizationMethod
  convergenceThreshold : Option ℝ
  maxEpisodes : Option Nat
  maxStepsPerEpisode : Option Nat

/-- An update object passed to updateConfig: every field of QLearningConfig
may be present (then it overrides) or absent (then the old value is kept),
mirroring the object-spread merge of the source. -/
structure ConfigPatch where
  gridSize : Option Int
  startPosition : Option Position
  goalPosition : Option Position
  hazardPositions : Option (List Position)
  rewardPositions : Option (Option (List RewardPosition))
  learningRate : Option ℝ
  discountFactor : Option ℝ
  epsilon : Option ℝ
  epsilonDecay : Option (Option ℝ)
  minEpsilon : Option (Option ℝ)
  rewards : Option Rewards
  useDirectionalHeuristics : Option (Option Bool)
  heuristicWeight : Option (Option ℝ)
  heuristicMethod : Option (Option HeuristicMethod)
  normalizeRewards : Option (Option Bool)
  normalizationMethod : Option (Option NormalizationMethod)
  convergenceThreshold : Option (Option ℝ)
  maxEpisodes : Option (Option Nat)
  maxStepsPerEpisode : Option (Option Nat)

/-- The object-spread merge performed by updateConfig in both environments:
a field present in the update replaces the old one, the rest are kept. -/
def mergeConfig (c : QLearningConfig) (p : ConfigPatch) : QLearningConfig where
  gridSize := p.gridSize.getD c.gridSize
  startPosition := p.startPosition.getD c.startPosition
  goalPosition := p.goalPosition.getD c.goalPosition
  hazardPositions := p.hazardPositions.getD c.hazardPositions
  rewardPositions := p.rewardPositions.getD c.rewardPositions
  learningRate := p.learningRate.getD c.learningRate
  discountFactor := p.discountFactor.getD c.discountFactor
  epsilon := p.epsilon.getD c.epsilon
  epsilonDecay := p.epsilonDecay.getD c.epsilonDecay
  minEpsilon := p.minEpsilon.getD c.minEpsilon
  rewards := p.rewards.getD c.rewards
  useDirectionalHeuristics := p.useDirectionalHeuristics.getD c.useDirectionalHeuristics
  heuristicWeight := p.heuristicWeight.getD c.heuristicWeight
  heuristicMethod := p.heuristicMethod.getD c.heuristicMethod
  normalizeRewards := p.normalizeRewards.getD c.normalizeRewards
  normalizationMethod := p.normalizationMethod.getD c.normalizationMethod
  convergenceThreshold := p.convergenceThreshold.getD c.convergenceThreshold
  maxEpisodes := p.maxEpisodes.getD c.maxEpisodes
  maxStepsPerEpisode := p.maxStepsPerEpisode.getD c.maxStepsPerEpisode

/-- JavaScript x || d on an optional number: absent or zero falls back to d. -/
def jsOrReal (o : Option ℝ) (d : ℝ) : ℝ :=
  match o with
  | none => d
  | some x => if x = 0 then d else x

/-- JavaScript x || d on an optional count: absent or zero falls back to d. -/
def jsOrNat (o : Option Nat) (d : Nat) : Nat :=
  match o with
  | none => d
  | some x => if x = 0 then d else x

/-- A position lies inside the square grid of the given size. -/
def inBounds (gridSize : Int) (p : Position) : Prop :=
  0 ≤ p.row ∧ p.row < gridSize ∧ 0 ≤ p.col ∧ p.col < gridSize

instance (gridSize : Int) (p : Position) : Decidable (inBounds gridSize p) := by
  unfold inBounds
  infer_instance

/-- One step of an agent: the per-step record the environments return
(interface StepResult).  Goal and hazard flags are booleans as in the
source. -/
structure StepResult where
  state : Position
  action : Action
  nextState : Position
  reward : ℝ
  normalizedReward : Option ℝ
  reachedGoal : Bool
  hitHazard : Bool

/-- The per-episode record (interface EpisodeResult). -/
structure EpisodeResult where
  episode : Nat
  steps : Nat
  totalReward : ℝ
  totalNormalizedReward : Option ℝ
  reachedGoal : Bool
  hitHazard : Bool
  averageQChange : ℝ
  history : List StepResult

/-- A grid cell of the Q-Learning environment: classification plus the four
Q-values, stored per action (interface Cell). -/
structure Cell where
  type : CellType
  qValues : Action → ℝ

/-- The running reward statistics of QLearningEnvironment.  In the source
minRewardSeen starts at plus infinity and maxRewardSeen at minus infinity;
none stands for those initial sentinels, and some x for a finite running
bound. -/
structure NormState where
  minRewardSeen : Option ℝ
  maxRewardSeen : Option ℝ
  rewardHistory : List ℝ

/-- Math.min of the running minimum sentinel and a new reward. -/
def runningMin (seen : Option ℝ) (r : ℝ) : ℝ :=
  match seen with
  | none => r
  | some m => min m r

/-- Math.max of the running maximum sentinel and a new reward. -/
def runningMax (seen : Option ℝ) (r : ℝ) : ℝ :=
  match seen with
  | none => r
  | some m => max m r

/-- Arithmetic mean of a list, as the source computes it (sum divided by
length; division by zero yields zero in this idealization). -/
def listMean (l : List ℝ) : ℝ := l.sum / l.length

/-- Population standard deviation recomputed from the whole history, as the
z-score branch of normalize computes it. -/
def listStddev (l : List ℝ) : ℝ :=
  Real.sqrt ((l.map (fun x => (x - listMean l) ^ 2)).sum / l.length)

/-- State of the Q-Learning environment: the grid of cells (which also holds
the value table), the configuration, the running reward statistics and the
agent position. -/
structure QLearningEnvironment where
  grid : Position → Cell
  config : QLearningConfig
  minRewardSeen : Option ℝ
  maxRewardSeen : Option ℝ
  rewardHistory : List ℝ
  currentPosition : Position

namespace QLearningEnvironment

/-- Cell classification of QLearningEnvironment.initializeGrid: the if-else
chain tests start first, then goal, then the hazard list. -/
def cellTypeOf (c : QLearningConfig) (p : Position) : CellType :=
  if p = c.startPosition then .start
  else if p = c.goalPosition then .goal
  else if p ∈ c.hazardPositions then .hazard
  else .empty

/-- QLearningEnvironment.initializeGrid: every cell gets its classification
and all four Q-values zero. -/
def initializeGrid (c : QLearningConfig) : Position → Cell :=
  fun p => { type := cellTypeOf c p, qValues := fun _ => 0 }

/-- QLearningEnvironment.getValidActions: boundary checks only, pushed in the
fixed order up, down, left, right. -/
def getValidActions (gridSize : Int) (p : Position) : List Action :=
  (if 0 < p.row then [Action.up] else [])
    ++ (if p.row < gridSize - 1 then [Action.down] else [])
    ++ (if 0 < p.col then [Action.left] else [])
    ++ (if p.col < gridSize - 1 then [Action.right] else [])

/-- QLearningEnvironment.getNextPosition: the unclamped one-cell move. -/
def getNextPosition (p : Position) : Action → Position
  | .up => ⟨p.row - 1, p.col⟩
  | .down => ⟨p.row + 1, p.col⟩
  | .left => ⟨p.row, p.col - 1⟩
  | .right => ⟨p.row, p.col + 1⟩

/-- QLearningEnvironment.rawReward: goal beats hazard beats the step reward
plus any bonus attached to the destination. -/
def rawReward (c : QLearningConfig) (pos : Position) : ℝ :=
  if pos = c.goalPosition then c.rewards.goal
  else if pos ∈ c.hazardPositions then c.rewards.hazard
  else
    c.rewards.step +
      match (c.rewardPositions.getD []).find? (fun rp => decide (rp.position = pos)) with
      | some rp => rp.reward
      | none => 0

/-- QLearningEnvironment.calculateDistance under the configured metric; a
missing method defaults to manhattan. -/
def calculateDistance (c : QLearningConfig) (p1 p2 : Position) : ℝ :=
  match c.heuristicMethod.getD .manhattan with
  | .manhattan => ((|p1.row - p2.row| + |p1.col - p2.col| : Int) : ℝ)
  | .euclidean => Real.sqrt ((((p1.row - p2.row : Int)) : ℝ) ^ 2 + (((p1.col - p2.col : Int)) : ℝ) ^ 2)
  | .chebyshev => ((max |p1.row - p2.row| |p1.col - p2.col| : Int) : ℝ)

/-- QLearningEnvironment.calculateHeuristicReward: zero when the flag is off,
otherwise the decrease in distance to the goal times the weight, where the
weight falls back to 0.1 when absent or zero (JavaScript or-default). -/
def calculateHeuristicReward (c : QLearningConfig) (currentPos nextPos : Position) : ℝ :=
  if c.useDirectionalHeuristics.getD false = false then 0
  else
    (calculateDistance c currentPos c.goalPosition - calculateDistance c nextPos c.goalPosition)
      * jsOrReal c.heuristicWeight 0.1

/-- The greatest Q-value of the successor cell over its boundary-valid
actions, zero when no action is valid: the Math.max expression of updateQ. -/
def maxNextQ (c : QLearningConfig) (grid : Position → Cell) (next : Position) : ℝ :=
  match (getValidActions c.gridSize next).map (fun a => (grid next).qValues a) with
  | [] => 0
  | x :: xs => xs.foldl max x

/-- QLearningEnvironment.updateQ: the temporal-difference update written into
the cell; returns the new grid together with the absolute delta the source
returns. -/
def updateQ (c : QLearningConfig) (grid : Position → Cell) (pos : Position)
    (action : Action) (next : Position) (reward : ℝ) : (Position → Cell) × ℝ :=
  let currQ := (grid pos).qValues action
  let delta := c.learningRate * (reward + c.discountFactor * maxNextQ c grid next - currQ)
  (fun p =>
      if p = pos then
        { grid pos with qValues := fun a => if a = action then currQ + delta else (grid pos).qValues a }
      else grid p,
    |delta|)

/-- QLearningEnvironment.chooseAction with the random draws made explicit: r1
is the uniform draw compared against epsilon, idx the index drawn for the
exploration pick.  The Action.up defaults are unreachable whenever the
valid-action list is nonempty, which holds at every in-bounds position of a
grid of size at least two; at other positions the source would fault on an
undefined array element. -/
def chooseAction (c : QLearningConfig) (grid : Position → Cell) (pos : Position)
    (epsilon : ℝ) (r1 : ℝ) (idx : Nat) : Action :=
  let actions := getValidActions c.gridSize pos
  let q := (grid pos).qValues
  if r1 < epsilon then actions.getD (idx % actions.length) Action.up
  else actions.foldl (fun best a => if q a > q best then a else best) (actions.getD 0 Action.up)

/-- QLearningEnvironment.step: terminal check on the goal and the hazard
list, then epsilon-greedy action choice, reward with heuristic term, Q
update and move.  Returns the step record (or none when terminal) together
with the successor environment state. -/
def step (env : QLearningEnvironment) (r1 : ℝ) (idx : Nat) :
    Option StepResult × QLearningEnvironment :=
  if env.currentPosition = env.config.goalPosition then (none, env)
  else if env.currentPosition ∈ env.config.hazardPositions then (none, env)
  else
    let action := chooseAction env.config env.grid env.currentPosition env.config.epsilon r1 idx
    let nextPosition := getNextPosition env.currentPosition action
    let baseReward := rawReward env.config nextPosition
    let heuristicReward := calculateHeuristicReward env.config env.currentPosition nextPosition
    let totalReward := baseReward + heuristicReward
    let updated := updateQ env.config env.grid env.currentPosition action nextPosition totalReward
    (some { state := env.currentPosition, action := action, nextState := nextPosition,
            reward := totalReward, normalizedReward := none,
            reachedGoal := decide (nextPosition = env.config.goalPosition),
            hitHazard := decide (nextPosition ∈ env.config.hazardPositions) },
      { env with grid := updated.1, currentPosition := nextPosition })

/-- Accumulated state of the while loop of QLearningEnvironment.runEpisode. -/
structure EpisodeLoopCore where
  grid : Position → Cell
  steps : Nat
  totalReward : ℝ
  reachedGoal : Bool
  hitHazard : Bool
  history : List StepResult

/-- The while loop of QLearningEnvironment.runEpisode, with the remaining
step budget as fuel (the loop runs while steps is below the configured
maximum, so the fuel starts at that maximum). -/
def runEpisodeLoop (c : QLearningConfig) (rand : Nat → ℝ × Nat) :
    Nat → (Position → Cell) → Position → Nat → ℝ → List StepResult → EpisodeLoopCore
  | 0, grid, _, steps, total, hist => ⟨grid, steps, total, false, false, hist⟩
  | fuel + 1, grid, pos, steps, total, hist =>
    if pos = c.goalPosition then ⟨grid, steps, total, true, false, hist⟩
    else if pos ∈ c.hazardPositions then ⟨grid, steps, total, false, true, hist⟩
    else
      let r := rand steps
      let action := chooseAction c grid pos c.epsilon r.1 r.2
      let next := getNextPosition pos action
      let stepReward := rawReward c next + calculateHeuristicReward c pos next
      let updated := updateQ c grid pos action next stepReward
      runEpisodeLoop c rand fuel updated.1 next (steps + 1) (total + stepReward)
        (hist ++ [{ state := pos, action := action, nextState := next, reward := stepReward,
                    normalizedReward := none, reachedGoal := false, hitHazard := false }])

/-- QLearningEnvironment.runEpisode: runs the loop from the start position on
the current grid and packages the episode record; the averageQChange field is
the literal zero of the source.  A missing maxStepsPerEpisode makes the
loop guard false at once (comparison with undefined), hence fuel zero. -/
def runEpisode (env : QLearningEnvironment) (rand : Nat → ℝ × Nat) :
    EpisodeResult × QLearningEnvironment :=
  let core := runEpisodeLoop env.config rand (env.config.maxStepsPerEpisode.getD 0)
      env.grid env.config.startPosition 0 0 []
  ({ episode := 0, steps := core.steps, totalReward := core.totalReward,
     totalNormalizedReward := none, reachedGoal := core.reachedGoal,
     hitHazard := core.hitHazard, averageQChange := 0, history := core.history },
    { env with grid := core.grid })

/-- QLearningEnvironment.normalize acting on the running statistics: pass
the reward through unchanged when normalization is off; otherwise update the
running bounds and apply the configured method with its division guard. -/
def normalize (c : QLearningConfig) (st : NormState) (r : ℝ) : ℝ × NormState :=
  if c.normalizeRewards.getD false = false then (r, st)
  else
    let newMin := runningMin st.minRewardSeen r
    let newMax := runningMax st.maxRewardSeen r
    if c.normalizationMethod.getD .minmax = .zscore then
      let hist := st.rewardHistory ++ [r]
      let sd := listStddev hist
      (if sd > 0 then (r - listMean hist) / sd else 0,
        { minRewardSeen := some newMin, maxRewardSeen := some newMax, rewardHistory := hist })
    else
      let range := newMax - newMin
      (if range > 0 then (r - newMin) / range else 0,
        { minRewardSeen := some newMin, maxRewardSeen := some newMax,
          rewardHistory := st.rewardHistory })

/-- QLearningEnvironment.updateConfig: merge the update into the
configuration and rebuild the grid (and with it the whole value table) from
the merged configuration.  Position and reward statistics are untouched. -/
def updateConfig (env : QLearningEnvironment) (p : ConfigPatch) : QLearningEnvironment :=
  { env with
    config := mergeConfig env.config p
    grid := initializeGrid (mergeConfig env.config p) }

end QLearningEnvironment

/-- Agent state of the SARSA environment (interface SARSAAgent): the flat
value table indexed by state-action index, the position, the committed
on-policy action, and the episode and step counters. -/
structure SARSAAgent where
  qTable : Int → ℝ
  currentPosition : Position
  currentAction : Action
  episodeCount : Nat
  totalSteps : Nat

/-- State of the SARSA environment: classification grid, agent, configuration
and running reward statistics. -/
structure SARSAEnvironment where
  grid : Position → CellType
  agent : SARSAAgent
  config : QLearningConfig
  minRewardSeen : Option ℝ
  maxRewardSeen : Option ℝ
  rewardHistory : List ℝ

namespace SARSAEnvironment

/-- Cell classification of SARSAEnvironment.initializeGrid: the writes go
start, then goal, then hazards, so a later write overwrites an earlier one
and hazard beats goal beats start. -/
def cellTypeOf (c : QLearningConfig) (p : Position) : CellType :=
  if p ∈ c.hazardPositions then .hazard
  else if p = c.goalPosition then .goal
  else if p = c.startPosition then .start
  else .empty

/-- SARSAEnvironment.initializeGrid as a classification function. -/
def initializeGrid (c : QLearningConfig) : Position → CellType :=
  fun p => cellTypeOf c p

/-- SARSAEnvironment.chooseInitialAction: a uniform pick from all four
actions, valid or not; idx is the drawn index. -/
def chooseInitialAction (idx : Nat) : Action :=
  [Action.up, Action.down, Action.left, Action.right].getD (idx % 4) Action.up

/-- SARSAEnvironment.getStateIndex. -/
def getStateIndex (c : QLearningConfig) (pos : Position) : Int :=
  pos.row * c.gridSize + pos.col

/-- SARSAEnvironment.getActionIndex. -/
def getActionIndex : Action → Int
  | .up => 0
  | .down => 1
  | .left => 2
  | .right => 3

/-- SARSAEnvironment.getQTableIndex. -/
def getQTableIndex (c : QLearningConfig) (pos : Position) (action : Action) : Int :=
  getStateIndex c pos * 4 + getActionIndex action

/-- SARSAEnvironment.getQValue. -/
def getQValue (c : QLearningConfig) (qTable : Int → ℝ) (pos : Position) (action : Action) : ℝ :=
  qTable (getQTableIndex c pos action)

/-- SARSAEnvironment.setQValue. -/
def setQValue (c : QLearningConfig) (qTable : Int → ℝ) (pos : Position) (action : Action)
    (value : ℝ) : Int → ℝ :=
  fun i => if i = getQTableIndex c pos action then value else qTable i

/-- SARSAEnvironment.getValidActions: boundary checks and, unlike the
Q-Learning environment, exclusion of destinations classified hazard. -/
def getValidActions (gridSize : Int) (grid : Position → CellType) (p : Position) : List Action :=
  (if 0 < p.row ∧ grid ⟨p.row - 1, p.col⟩ ≠ .hazard then [Action.up] else [])
    ++ (if p.row < gridSize - 1 ∧ grid ⟨p.row + 1, p.col⟩ ≠ .hazard then [Action.down] else [])
    ++ (if 0 < p.col ∧ grid ⟨p.row, p.col - 1⟩ ≠ .hazard then [Action.left] else [])
    ++ (if p.col < gridSize - 1 ∧ grid ⟨p.row, p.col + 1⟩ ≠ .hazard then [Action.right] else [])

/-- SARSAEnvironment.getNextPosition: the one-cell move with each moved
coordinate clamped into the grid by Math.max and Math.min. -/
def getNextPosition (gridSize : Int) (p : Position) : Action → Position
  | .up => ⟨max 0 (p.row - 1), p.col⟩
  | .down => ⟨min (gridSize - 1) (p.row + 1), p.col⟩
  | .left => ⟨p.row, max 0 (p.col - 1)⟩
  | .right => ⟨p.row, min (gridSize - 1) (p.col + 1)⟩

/-- SARSAEnvironment.getReward: by the classification of the destination
cell. -/
def getReward (c : QLearningConfig) (grid : Position → CellType) (pos : Position) : ℝ :=
  match grid pos with
  | .goal => c.rewards.goal
  | .hazard => c.rewards.hazard
  | _ => c.rewards.step

/-- SARSAEnvironment.getCurrentEpsilon: multiplicative decay per completed
episode with a floor; absent or zero decay and floor fall back to one and
zero (JavaScript or-default). -/
def getCurrentEpsilon (c : QLearningConfig) (episodeCount : Nat) : ℝ :=
  max (jsOrReal c.minEpsilon 0) (c.epsilon * jsOrReal c.epsilonDecay 1 ^ episodeCount)

/-- SARSAEnvironment.chooseAction with the random draws explicit; the source
returns up outright when no action is valid. -/
def chooseAction (c : QLearningConfig) (grid : Position → CellType) (qTable : Int → ℝ)
    (pos : Position) (epsilon : ℝ) (r1 : ℝ) (idx : Nat) : Action :=
  let validActions := getValidActions c.gridSize grid pos
  match validActions with
  | [] => Action.up
  | b :: _ =>
    if r1 < epsilon then validActions.getD (idx % validActions.length) Action.up
    else validActions.foldl
        (fun best a => if getQValue c qTable pos a > getQValue c qTable pos best then a else best) b

/-- SARSAEnvironment.updateQValue: the on-policy update using the committed
next action; returns the new table and the new Q-value the source returns. -/
def updateQValue (c : QLearningConfig) (qTable : Int → ℝ) (pos : Position) (action : Action)
    (nextPos : Position) (nextAction : Action) (reward : ℝ) : (Int → ℝ) × ℝ :=
  let currentQ := getQValue c qTable pos action
  let nextQ := getQValue c qTable nextPos nextAction
  let newQ := currentQ + c.learningRate * (reward + c.discountFactor * nextQ - currentQ)
  (setQValue c qTable pos action newQ, newQ)

/-- SARSAEnvironment.step: terminal check by the classification of the
current cell; otherwise execute the committed action, record the reward in
the running statistics, choose the next action on-policy, update the value
table and commit the next action. -/
def step (env : SARSAEnvironment) (r1 : ℝ) (idx : Nat) :
    Option StepResult × SARSAEnvironment :=
  let currentPos := env.agent.currentPosition
  let currentAction := env.agent.currentAction
  match env.grid currentPos with
  | .goal => (none, env)
  | .hazard => (none, env)
  | _ =>
    let nextPos := getNextPosition env.config.gridSize currentPos currentAction
    let reward := getReward env.config env.grid nextPos
    let nextAction := chooseAction env.config env.grid env.agent.qTable nextPos
        (getCurrentEpsilon env.config env.agent.episodeCount) r1 idx
    let updated := updateQValue env.config env.agent.qTable currentPos currentAction
        nextPos nextAction reward
    (some { state := currentPos, action := currentAction, nextState := nextPos,
            reward := reward, normalizedReward := none,
            reachedGoal := decide (env.grid nextPos = .goal),
            hitHazard := decide (env.grid nextPos = .hazard) },
      { env with
        agent := { qTable := updated.1, currentPosition := nextPos, currentAction := nextAction,
                   episodeCount := env.agent.episodeCount,
                   totalSteps := env.agent.totalSteps + 1 },
        minRewardSeen := some (runningMin env.minRewardSeen reward),
        maxRewardSeen := some (runningMax env.maxRewardSeen reward),
        rewardHistory := env.rewardHistory ++ [reward] })

/-- SARSAEnvironment.resetPosition: back to the start with a fresh random
initial action. -/
def resetPosition (env : SARSAEnvironment) (initIdx : Nat) : SARSAEnvironment :=
  { env with agent := { env.agent with
      currentPosition := env.config.startPosition
      currentAction := chooseInitialAction initIdx } }

/-- Accumulated state of the while loop of SARSAEnvironment.runEpisode. -/
structure SARSAEpisodeCore where
  env : SARSAEnvironment
  steps : Nat
  totalReward : ℝ
  history : List StepResult
  reachedGoal : Bool
  hitHazard : Bool

/-- The while loop of SARSAEnvironment.runEpisode: call step until it
returns none (then read the flags off the final cell) or the step budget is
exhausted (then both flags stay false). -/
def runEpisodeLoop (rand : Nat → ℝ × Nat) :
    Nat → SARSAEnvironment → Nat → ℝ → List StepResult → SARSAEpisodeCore
  | 0, env, steps, total, hist => ⟨env, steps, total, hist, false, false⟩
  | fuel + 1, env, steps, total, hist =>
    match step env (rand steps).1 (rand steps).2 with
    | (none, env2) =>
      ⟨env2, steps, total, hist, decide (env2.grid env2.agent.currentPosition = .goal),
        decide (env2.grid env2.agent.currentPosition = .hazard)⟩
    | (some res, env2) =>
      runEpisodeLoop rand fuel env2 (steps + 1) (total + res.reward) (hist ++ [res])

/-- SARSAEnvironment.runEpisode: reset the position, run the loop, bump the
episode counter and package the record.  The totalQChange accumulator of the
source is declared zero and never fed, as in the source. -/
def runEpisode (env : SARSAEnvironment) (initIdx : Nat) (rand : Nat → ℝ × Nat) :
    EpisodeResult × SARSAEnvironment :=
  let env0 := resetPosition env initIdx
  let maxSteps := jsOrNat env.config.maxStepsPerEpisode 100
  let totalQChange : ℝ := 0
  let core := runEpisodeLoop rand maxSteps env0 0 0 []
  let env1 := { core.env with
    agent := { core.env.agent with episodeCount := core.env.agent.episodeCount + 1 } }
  ({ episode := env1.agent.episodeCount, steps := core.steps, totalReward := core.totalReward,
     totalNormalizedReward := none, reachedGoal := core.reachedGoal,
     hitHazard := core.hitHazard,
     averageQChange := totalQChange / max 1 (core.steps : ℝ), history := core.history },
    env1)

/-- SARSAEnvironment.updateConfig: merge the update into the configuration
and rebuild the classification grid; the agent, and with it the whole value
table, is untouched. -/
def updateConfig (env : SARSAEnvironment) (p : ConfigPatch) : SARSAEnvironment :=
  { env with
    config := mergeConfig env.config p
    grid := initializeGrid (mergeConfig env.config p) }

end SARSAEnvironment

/-- A small concrete configuration used to instantiate theorems: the 2-by-2
grid scenario of the testable-properties section, with normalization
switched on so the normalize guards can be exercised. -/
def sampleConfig : QLearningConfig where
  gridSize := 2
  startPosition := ⟨0, 0⟩
  goalPosition := ⟨1, 1⟩
  hazardPositions := []
  rewardPositions := none
  learningRate := 1/2
  discountFactor := 9/10
  epsilon := 0
  epsilonDecay := none
  minEpsilon := none
  rewards := ⟨10, -10, -1⟩
  useDirectionalHeuristics := none
  heuristicWeight := none
  heuristicMethod := none
  normalizeRewards := some true
  normalizationMethod := none
  convergenceThreshold := none
  maxEpisodes := none
  maxStepsPerEpisode := some 100

/-- A concrete value table with one learned entry: 5 at flat index 3, which
is the state-action index of the pair (position (0,0), right) on a grid of
size 2. -/
def sampleQTable : Int → ℝ :=
  fun i => if i = 3 then 5 else 0

/-- A concrete Q-Learning environment state over sampleConfig. -/
def sampleQEnv : QLearningEnvironment where
  grid := QLearningEnvironment.initializeGrid sampleConfig
  config := sampleConfig
  minRewardSeen := none
  maxRewardSeen := none
  rewardHistory := []
  currentPosition := ⟨0, 0⟩

/-- A concrete SARSA environment state over sampleConfig, sitting at the
start cell with the action right committed and one learned value in its
table. -/
def sampleSarsaEnv : SARSAEnvironment where
  grid := SARSAEnvironment.initializeGrid sampleConfig
  agent := { qTable := sampleQTable
             currentPosition := ⟨0, 0⟩
             currentAction := Action.right
             episodeCount := 0
             totalSteps := 0 }
  config := sampleConfig
  minRewardSeen := none
  maxRewardSeen := none
  rewardHistory := []

/-- The update object with no field present: merging it changes nothing. -/
def emptyPatch : ConfigPatch where
  gridSize := none
  startPosition := none
  goalPosition := none
  hazardPositions := none
  rewardPositions := none
  learningRate := none
  discountFactor := none
  epsilon := none
  epsilonDecay := none
  minEpsilon := none
  rewards := none
  useDirectionalHeuristics := none
  heuristicWeight := none
  heuristicMethod := none
  normalizeRewards := none
  normalizationMethod := none
  convergenceThreshold := none
  maxEpisodes := none
  maxStepsPerEpisode := none

/-- A concrete configuration update touching only the exploration rate. -/
def samplePatch : ConfigPatch :=
  { emptyPatch with epsilon := some (1/2) }

/-- A concrete configuration with directional heuristics on, manhattan
metric, goal at (0,5) and the heuristic weight configured as zero. -/
def sampleHeuristicConfig : QLearningConfig :=
  { sampleConfig with
    gridSize := 6
    goalPosition := ⟨0, 5⟩
    useDirectionalHeuristics := some true
    heuristicWeight := some 0
    heuristicMethod := some HeuristicMethod.manhattan }

/- Helper lemmas shared by the claim theorems. -/

/-- One temporal-difference update moves the stored value toward the target
by the factor one minus the learning rate, exactly. -/
theorem td_contraction (old target α : ℝ) (hα : α ≤ 1) :
    |old + α * (target - old) - target| = (1 - α) * |old - target| := by
  have h : old + α * (target - old) - target = (1 - α) * (old - target) := by ring
  rw [h, abs_mul, abs_of_nonneg (by linarith : (0:ℝ) ≤ 1 - α)]

/-- The seed of a left max fold is below the fold. -/
theorem foldl_max_init_le (xs : List ℝ) : ∀ x : ℝ, x ≤ xs.foldl max x := by
  induction xs with
  | nil => intro x; simp
  | cons a t ih =>
    intro x
    calc x ≤ max x a := le_max_left x a
    _ ≤ t.foldl max (max x a) := ih (max x a)

/-- Every list element is below a left max fold over the list. -/
theorem le_foldl_max_of_mem (xs : List ℝ) : ∀ x y, y ∈ xs → y ≤ xs.foldl max x := by
  induction xs with
  | nil => intro x y hy; cases hy
  | cons a t ih =>
    intro x y hy
    rcases List.mem_cons.mp hy with rfl | hmem
    · calc y ≤ max x y := le_max_right x y
      _ ≤ t.foldl max (max x y) := foldl_max_init_le t (max x y)
    · exact ih (max x a) y hmem

/-- A left max fold is the seed or one of the list elements. -/
theorem foldl_max_mem (xs : List ℝ) : ∀ x, xs.foldl max x = x ∨ xs.foldl max x ∈ xs := by
  induction xs with
  | nil => intro x; left; rfl
  | cons a t ih =>
    intro x
    rcases ih (max x a) with h | h
    · rcases max_choice x a with hx | hx
      · left; rw [List.foldl_cons, h, hx]
      · right; rw [List.foldl_cons, h, hx]; exact List.mem_cons_self a t
    · right; exact List.mem_cons_of_mem a h

/-- The Math.max expression of updateQ is the least upper bound of the
successor Q-values over the boundary-valid action list: every valid action
is below it, it is attained by a valid action when one exists, and it is
zero when none exists. -/
theorem maxNextQ_spec (c : QLearningConfig) (grid : Position → Cell) (next : Position) :
    (∀ a ∈ QLearningEnvironment.getValidActions c.gridSize next,
        (grid next).qValues a ≤ QLearningEnvironment.maxNextQ c grid next)
    ∧ (QLearningEnvironment.getValidActions c.gridSize next ≠ [] →
        ∃ a ∈ QLearningEnvironment.getValidActions c.gridSize next,
          QLearningEnvironment.maxNextQ c grid next = (grid next).qValues a)
    ∧ (QLearningEnvironment.getValidActions c.gridSize next = [] →
        QLearningEnvironment.maxNextQ c grid next = 0) := by
  cases hv : QLearningEnvironment.getValidActions c.gridSize next with
  | nil =>
    refine ⟨?_, ?_, ?_⟩
    · intro a ha; exact absurd ha (List.not_mem_nil a)
    · intro h; exact absurd rfl h
    · intro _; simp [QLearningEnvironment.maxNextQ, hv]
  | cons v vs =>
    have hmax : QLearningEnvironment.maxNextQ c grid next
        = (vs.map fun a => (grid next).qValues a).foldl max ((grid next).qValues v) := by
      simp [QLearningEnvironment.maxNextQ, hv]
    refine ⟨?_, ?_, ?_⟩
    · intro a ha
      rw [hmax]
      rcases List.mem_cons.mp ha with rfl | hmem
      · exact foldl_max_init_le _ _
      · exact le_foldl_max_of_mem _ _ _ (List.mem_map_of_mem _ hmem)
    · intro _
      rcases foldl_max_mem (vs.map fun a => (grid next).qValues a) ((grid next).qValues v)
          with h | h
      · exact ⟨v, List.mem_cons_self v vs, by rw [hmax, h]⟩
      · rcases List.mem_map.mp h with ⟨a, ha, hfa⟩
        exact ⟨a, List.mem_cons_of_mem v ha, by rw [hmax, ← hfa]⟩
    · intro h; exact absurd h (List.cons_ne_nil v vs)

/-- C1: updateQ writes Q(s,a) + learningRate times (target minus Q(s,a))
into the cell, where the target is the reward plus discountFactor times the
greatest successor Q-value over the boundary-valid actions of the successor
(zero when none is valid, and never over the full action set); consequently
one update contracts the distance to the target by exactly one minus the
learning rate. -/
theorem C1_updateQ_contraction (c : QLearningConfig) (grid : Position → Cell)
    (pos : Position) (action : Action) (next : Position) (reward : ℝ)
    (hα : c.learningRate ≤ 1) :
    ((QLearningEnvironment.updateQ c grid pos action next reward).1 pos).qValues action
        = (grid pos).qValues action
          + c.learningRate
            * (reward + c.discountFactor * QLearningEnvironment.maxNextQ c grid next
              - (grid pos).qValues action)
    ∧ |((QLearningEnvironment.updateQ c grid pos action next reward).1 pos).qValues action
          - (reward + c.discountFactor * QLearningEnvironment.maxNextQ c grid next)|
        = (1 - c.learningRate)
          * |(grid pos).qValues action
              - (reward + c.discountFactor * QLearningEnvironment.maxNextQ c grid next)|
    ∧ (∀ a ∈ QLearningEnvironment.getValidActions c.gridSize next,
        (grid next).qValues a ≤ QLearningEnvironment.maxNextQ c grid next)
    ∧ (QLearningEnvironment.getValidActions c.gridSize next ≠ [] →
        ∃ a ∈ QLearningEnvironment.getValidActions c.gridSize next,
          QLearningEnvironment.maxNextQ c grid next = (grid next).qValues a)
    ∧ (QLearningEnvironment.getValidActions c.gridSize next = [] →
        QLearningEnvironment.maxNextQ c grid next = 0) := by
  have hnew : ((QLearningEnvironment.updateQ c grid pos action next reward).1 pos).qValues action
      = (grid pos).qValues action
        + c.learningRate
          * (reward + c.discountFactor * QLearningEnvironment.maxNextQ c grid next
            - (grid pos).qValues action) := by
    simp [QLearningEnvironment.updateQ]
  obtain ⟨h1, h2, h3⟩ := maxNextQ_spec c grid next
  refine ⟨hnew, ?_, h1, h2, h3⟩
  rw [hnew]
  exact td_contraction ((grid pos).qValues action)
    (reward + c.discountFactor * QLearningEnvironment.maxNextQ c grid next) c.learningRate hα

/-- Witness for C1 at the concrete 2-by-2 scenario: state (0,0), action
right, successor (0,1), step reward minus one, learning rate one half. -/
theorem C1_updateQ_contraction_witness :
    ((QLearningEnvironment.updateQ sampleConfig
          (QLearningEnvironment.initializeGrid sampleConfig) ⟨0, 0⟩ Action.right ⟨0, 1⟩
          (-1)).1 ⟨0, 0⟩).qValues Action.right
        = (QLearningEnvironment.initializeGrid sampleConfig ⟨0, 0⟩).qValues Action.right
          + sampleConfig.learningRate
            * (-1 + sampleConfig.discountFactor
                * QLearningEnvironment.maxNextQ sampleConfig
                    (QLearningEnvironment.initializeGrid sampleConfig) ⟨0, 1⟩
              - (QLearningEnvironment.initializeGrid sampleConfig ⟨0, 0⟩).qValues Action.right)
    ∧ |((QLearningEnvironment.updateQ sampleConfig
            (QLearningEnvironment.initializeGrid sampleConfig) ⟨0, 0⟩ Action.right ⟨0, 1⟩
            (-1)).1 ⟨0, 0⟩).qValues Action.right
          - (-1 + sampleConfig.discountFactor
              * QLearningEnvironment.maxNextQ sampleConfig
                  (QLearningEnvironment.initializeGrid sampleConfig) ⟨0, 1⟩)|
        = (1 - sampleConfig.learningRate)
          * |(QLearningEnvironment.initializeGrid sampleConfig ⟨0, 0⟩).qValues Action.right
              - (-1 + sampleConfig.discountFactor
                  * QLearningEnvironment.maxNextQ sampleConfig
                      (QLearningEnvironment.initializeGrid sampleConfig) ⟨0, 1⟩)|
    ∧ (∀ a ∈ QLearningEnvironment.getValidActions sampleConfig.gridSize ⟨0, 1⟩,
        (QLearningEnvironment.initializeGrid sampleConfig ⟨0, 1⟩).qValues a
          ≤ QLearningEnvironment.maxNextQ sampleConfig
              (QLearningEnvironment.initializeGrid sampleConfig) ⟨0, 1⟩)
    ∧ (QLearningEnvironment.getValidActions sampleConfig.gridSize ⟨0, 1⟩ ≠ [] →
        ∃ a ∈ QLearningEnvironment.getValidActions sampleConfig.gridSize ⟨0, 1⟩,
          QLearningEnvironment.maxNextQ sampleConfig
              (QLearningEnvironment.initializeGrid sampleConfig) ⟨0, 1⟩
            = (QLearningEnvironment.initializeGrid sampleConfig ⟨0, 1⟩).qValues a)
    ∧ (QLearningEnvironment.getValidActions sampleConfig.gridSize ⟨0, 1⟩ = [] →
        QLearningEnvironment.maxNextQ sampleConfig
            (QLearningEnvironment.initializeGrid sampleConfig) ⟨0, 1⟩ = 0) :=
  C1_updateQ_contraction sampleConfig (QLearningEnvironment.initializeGrid sampleConfig)
    ⟨0, 0⟩ Action.right ⟨0, 1⟩ (-1) (by norm_num [sampleConfig])

/-- Reading the table written by updateQValue at the updated pair gives the
on-policy temporal-difference value. -/
theorem updateQValue_at (c : QLearningConfig) (qTable : Int → ℝ) (pos : Position)
    (action : Action) (nextPos : Position) (nextAction : Action) (reward : ℝ) :
    SARSAEnvironment.getQValue c
        (SARSAEnvironment.updateQValue c qTable pos action nextPos nextAction reward).1 pos action
      = SARSAEnvironment.getQValue c qTable pos action
        + c.learningRate
          * (reward + c.discountFactor * SARSAEnvironment.getQValue c qTable nextPos nextAction
            - SARSAEnvironment.getQValue c qTable pos action) := by
  simp [SARSAEnvironment.updateQValue, SARSAEnvironment.setQValue, SARSAEnvironment.getQValue]

/-- C2: updateQValue replaces Q(s,a) by Q(s,a) + learningRate times (reward
plus discountFactor times Q at the successor state and the committed next
action, minus Q(s,a)) — the same contraction law as Q-Learning but with the
actually-selected next action in the target instead of a maximum — and a
non-terminal step feeds updateQValue exactly the next action it just chose
and committed to the agent. -/
theorem C2_sarsa_update_contraction (c : QLearningConfig) (qTable : Int → ℝ)
    (pos : Position) (action : Action) (nextPos : Position) (nextAction : Action) (reward : ℝ)
    (env : SARSAEnvironment) (r1 : ℝ) (idx : Nat)
    (hα : c.learningRate ≤ 1)
    (henv : env.grid env.agent.currentPosition ≠ CellType.goal ∧
      env.grid env.agent.currentPosition ≠ CellType.hazard) :
    SARSAEnvironment.getQValue c
        (SARSAEnvironment.updateQValue c qTable pos action nextPos nextAction reward).1 pos action
      = SARSAEnvironment.getQValue c qTable pos action
        + c.learningRate
          * (reward + c.discountFactor * SARSAEnvironment.getQValue c qTable nextPos nextAction
            - SARSAEnvironment.getQValue c qTable pos action)
    ∧ |SARSAEnvironment.getQValue c
          (SARSAEnvironment.updateQValue c qTable pos action nextPos nextAction reward).1 pos action
        - (reward + c.discountFactor * SARSAEnvironment.getQValue c qTable nextPos nextAction)|
      = (1 - c.learningRate)
        * |SARSAEnvironment.getQValue c qTable pos action
            - (reward + c.discountFactor * SARSAEnvironment.getQValue c qTable nextPos nextAction)|
    ∧ SARSAEnvironment.getQValue env.config (SARSAEnvironment.step env r1 idx).2.agent.qTable
          env.agent.currentPosition env.agent.currentAction
      = SARSAEnvironment.getQValue env.config env.agent.qTable env.agent.currentPosition
          env.agent.currentAction
        + env.config.learningRate
          * (SARSAEnvironment.getReward env.config env.grid
                (SARSAEnvironment.step env r1 idx).2.agent.currentPosition
            + env.config.discountFactor
              * SARSAEnvironment.getQValue env.config env.agent.qTable
                  (SARSAEnvironment.step env r1 idx).2.agent.currentPosition
                  (SARSAEnvironment.step env r1 idx).2.agent.currentAction
            - SARSAEnvironment.getQValue env.config env.agent.qTable env.agent.currentPosition
                env.agent.currentAction) := by
  refine ⟨updateQValue_at c qTable pos action nextPos nextAction reward, ?_, ?_⟩
  · rw [updateQValue_at c qTable pos action nextPos nextAction reward]
    exact td_contraction (SARSAEnvironment.getQValue c qTable pos action)
      (reward + c.discountFactor * SARSAEnvironment.getQValue c qTable nextPos nextAction)
      c.learningRate hα
  · rcases hcell : env.grid env.agent.currentPosition with _ | _ | _ | _
    · simp only [SARSAEnvironment.step, hcell]
      exact updateQValue_at env.config env.agent.qTable env.agent.currentPosition
        env.agent.currentAction _ _ _
    · simp only [SARSAEnvironment.step, hcell]
      exact updateQValue_at env.config env.agent.qTable env.agent.currentPosition
        env.agent.currentAction _ _ _
    · exact absurd hcell henv.1
    · exact absurd hcell henv.2

/-- Witness for C2 at the concrete scenario: the sample SARSA environment at
the start cell with the action right committed, and an update of the pair
(position (0,0), right) toward successor (0,1) with the committed action
down and step reward minus one. -/
theorem C2_sarsa_update_contraction_witness :
    SARSAEnvironment.getQValue sampleConfig
        (SARSAEnvironment.updateQValue sampleConfig sampleQTable ⟨0, 0⟩ Action.right ⟨0, 1⟩
          Action.down (-1)).1 ⟨0, 0⟩ Action.right
      = SARSAEnvironment.getQValue sampleConfig sampleQTable ⟨0, 0⟩ Action.right
        + sampleConfig.learningRate
          * (-1 + sampleConfig.discountFactor
              * SARSAEnvironment.getQValue sampleConfig sampleQTable ⟨0, 1⟩ Action.down
            - SARSAEnvironment.getQValue sampleConfig sampleQTable ⟨0, 0⟩ Action.right)
    ∧ |SARSAEnvironment.getQValue sampleConfig
          (SARSAEnvironment.updateQValue sampleConfig sampleQTable ⟨0, 0⟩ Action.right ⟨0, 1⟩
            Action.down (-1)).1 ⟨0, 0⟩ Action.right
        - (-1 + sampleConfig.discountFactor
            * SARSAEnvironment.getQValue sampleConfig sampleQTable ⟨0, 1⟩ Action.down)|
      = (1 - sampleConfig.learningRate)
        * |SARSAEnvironment.getQValue sampleConfig sampleQTable ⟨0, 0⟩ Action.right
            - (-1 + sampleConfig.discountFactor
                * SARSAEnvironment.getQValue sampleConfig sampleQTable ⟨0, 1⟩ Action.down)|
    ∧ SARSAEnvironment.getQValue sampleSarsaEnv.config
          (SARSAEnvironment.step sampleSarsaEnv 1 0).2.agent.qTable
          sampleSarsaEnv.agent.currentPosition sampleSarsaEnv.agent.currentAction
      = SARSAEnvironment.getQValue sampleSarsaEnv.config sampleSarsaEnv.agent.qTable
          sampleSarsaEnv.agent.currentPosition sampleSarsaEnv.agent.currentAction
        + sampleSarsaEnv.config.learningRate
          * (SARSAEnvironment.getReward sampleSarsaEnv.config sampleSarsaEnv.grid
                (SARSAEnvironment.step sampleSarsaEnv 1 0).2.agent.currentPosition
            + sampleSarsaEnv.config.discountFactor
              * SARSAEnvironment.getQValue sampleSarsaEnv.config sampleSarsaEnv.agent.qTable
                  (SARSAEnvironment.step sampleSarsaEnv 1 0).2.agent.currentPosition
                  (SARSAEnvironment.step sampleSarsaEnv 1 0).2.agent.currentAction
            - SARSAEnvironment.getQValue sampleSarsaEnv.config sampleSarsaEnv.agent.qTable
                sampleSarsaEnv.agent.currentPosition sampleSarsaEnv.agent.currentAction) :=
  C2_sarsa_update_contraction sampleConfig sampleQTable ⟨0, 0⟩ Action.right ⟨0, 1⟩
    Action.down (-1) sampleSarsaEnv 1 0 (by norm_num [sampleConfig]) (by decide)

/-- C3 (amended): updateConfig merges the update into the configuration and
rebuilds the grid from the merged configuration in both environments.  For
Q-Learning the value table lives inside the grid cells, so every learned
value is reset to zero; for SARSA the agent — and with it the whole value
table — is left untouched. -/
theorem C3_updateConfig_reinit (qenv : QLearningEnvironment) (senv : SARSAEnvironment)
    (p : ConfigPatch) :
    (QLearningEnvironment.updateConfig qenv p).config = mergeConfig qenv.config p
    ∧ (QLearningEnvironment.updateConfig qenv p).grid
        = QLearningEnvironment.initializeGrid (mergeConfig qenv.config p)
    ∧ (∀ pos a, ((QLearningEnvironment.updateConfig qenv p).grid pos).qValues a = 0)
    ∧ (QLearningEnvironment.updateConfig qenv p).currentPosition = qenv.currentPosition
    ∧ (SARSAEnvironment.updateConfig senv p).config = mergeConfig senv.config p
    ∧ (SARSAEnvironment.updateConfig senv p).grid
        = SARSAEnvironment.initializeGrid (mergeConfig senv.config p)
    ∧ (SARSAEnvironment.updateConfig senv p).agent = senv.agent :=
  ⟨rfl, rfl, fun _ _ => rfl, rfl, rfl, rfl, rfl⟩

/-- Counterexample to C3 as stated: the sample SARSA environment holds the
learned value 5 for the pair (position (0,0), right); after updateConfig the
value is still 5, not 0, because SARSA updateConfig rebuilds only the
classification grid and never reinitializes the agent value table. -/
theorem C3_counterexample :
    SARSAEnvironment.getQValue (mergeConfig sampleConfig samplePatch)
        (SARSAEnvironment.updateConfig sampleSarsaEnv samplePatch).agent.qTable
        ⟨0, 0⟩ Action.right = 5
    ∧ (5 : ℝ) ≠ 0 := by
  constructor
  · show sampleQTable (SARSAEnvironment.getQTableIndex (mergeConfig sampleConfig samplePatch)
      ⟨0, 0⟩ Action.right) = 5
    norm_num [sampleQTable, SARSAEnvironment.getQTableIndex, SARSAEnvironment.getStateIndex,
      SARSAEnvironment.getActionIndex, mergeConfig, sampleConfig, samplePatch, emptyPatch]
  · norm_num

/-- Membership in a conditional singleton-or-empty list splits into the
condition and membership in the list. -/
theorem mem_ite_nil {α : Type} (c : Prop) [Decidable c] (l : List α) (a : α) :
    a ∈ (if c then l else []) ↔ c ∧ a ∈ l := by
  split_ifs with h
  · simp [h]
  · simp [h]

/-- From an in-bounds position, the Q-Learning valid actions are exactly the
directions whose one-cell destination stays in bounds. -/
theorem mem_qValidActions_iff (gs : Int) (p : Position) (a : Action) (hp : inBounds gs p) :
    a ∈ QLearningEnvironment.getValidActions gs p ↔
      inBounds gs (QLearningEnvironment.getNextPosition p a) := by
  obtain ⟨h1, h2, h3, h4⟩ := hp
  cases a <;>
    simp only [QLearningEnvironment.getValidActions, List.mem_append, mem_ite_nil,
      List.mem_singleton, List.not_mem_nil, and_false, false_or, or_false, and_true,
      true_and, eq_self_iff_true, QLearningEnvironment.getNextPosition, inBounds,
      reduceCtorEq] <;>
    omega

/-- From an in-bounds position, the SARSA valid actions are exactly the
directions whose one-cell destination stays in bounds and is not classified
hazard. -/
theorem mem_sarsaValidActions_iff (gs : Int) (grid : Position → CellType) (p : Position)
    (a : Action) (hp : inBounds gs p) :
    a ∈ SARSAEnvironment.getValidActions gs grid p ↔
      inBounds gs (QLearningEnvironment.getNextPosition p a)
        ∧ grid (QLearningEnvironment.getNextPosition p a) ≠ CellType.hazard := by
  obtain ⟨h1, h2, h3, h4⟩ := hp
  cases a <;>
    simp only [SARSAEnvironment.getValidActions, List.mem_append, mem_ite_nil,
      List.mem_singleton, List.not_mem_nil, and_false, false_or, or_false, and_true,
      true_and, eq_self_iff_true, QLearningEnvironment.getNextPosition, inBounds,
      reduceCtorEq] <;>
    (constructor
     · rintro ⟨hA, hG⟩; exact ⟨by omega, hG⟩
     · rintro ⟨hA, hG⟩; exact ⟨by omega, hG⟩)

/-- From an in-bounds position the clamped SARSA transition stays in
bounds. -/
theorem sarsa_nextPosition_inBounds (gs : Int) (p : Position) (a : Action)
    (hp : inBounds gs p) : inBounds gs (SARSAEnvironment.getNextPosition gs p a) := by
  obtain ⟨h1, h2, h3, h4⟩ := hp
  cases a <;>
    simp only [SARSAEnvironment.getNextPosition, inBounds] <;>
    omega

/-- From an in-bounds position the clamped SARSA transition agrees with the
unclamped one-cell move exactly when that move stays in bounds. -/
theorem sarsa_nextPosition_eq_iff (gs : Int) (p : Position) (a : Action)
    (hp : inBounds gs p) :
    SARSAEnvironment.getNextPosition gs p a = QLearningEnvironment.getNextPosition p a ↔
      inBounds gs (QLearningEnvironment.getNextPosition p a) := by
  obtain ⟨h1, h2, h3, h4⟩ := hp
  cases a <;>
    simp only [SARSAEnvironment.getNextPosition, QLearningEnvironment.getNextPosition,
      inBounds, Position.mk.injEq, eq_self_iff_true, and_true, true_and] <;>
    omega

/-- C4: from an in-bounds position, the SARSA valid actions are exactly the
directions whose one-cell destination stays in bounds and is not classified
hazard, while the Q-Learning valid actions are exactly the directions whose
one-cell destination stays in bounds, hazards notwithstanding. -/
theorem C4_validActions_hazard_filter (gs : Int) (grid : Position → CellType)
    (p : Position) (a : Action) (hp : inBounds gs p) :
    (a ∈ SARSAEnvironment.getValidActions gs grid p ↔
      inBounds gs (QLearningEnvironment.getNextPosition p a)
        ∧ grid (QLearningEnvironment.getNextPosition p a) ≠ CellType.hazard)
    ∧ (a ∈ QLearningEnvironment.getValidActions gs p ↔
      inBounds gs (QLearningEnvironment.getNextPosition p a)) :=
  ⟨mem_sarsaValidActions_iff gs grid p a hp, mem_qValidActions_iff gs p a hp⟩

/-- Witness for C4 on the sample grid at the start cell with the action
down. -/
theorem C4_validActions_hazard_filter_witness :
    (Action.down ∈ SARSAEnvironment.getValidActions sampleConfig.gridSize
        (SARSAEnvironment.initializeGrid sampleConfig) ⟨0, 0⟩ ↔
      inBounds sampleConfig.gridSize (QLearningEnvironment.getNextPosition ⟨0, 0⟩ Action.down)
        ∧ SARSAEnvironment.initializeGrid sampleConfig
            (QLearningEnvironment.getNextPosition ⟨0, 0⟩ Action.down) ≠ CellType.hazard)
    ∧ (Action.down ∈ QLearningEnvironment.getValidActions sampleConfig.gridSize ⟨0, 0⟩ ↔
      inBounds sampleConfig.gridSize (QLearningEnvironment.getNextPosition ⟨0, 0⟩ Action.down)) :=
  C4_validActions_hazard_filter sampleConfig.gridSize
    (SARSAEnvironment.initializeGrid sampleConfig) ⟨0, 0⟩ Action.down (by decide)

/-- C5 (amended): from an in-bounds position the SARSA transition always
lands in bounds, it agrees with the unclamped one-cell move exactly when
that move stays in bounds (otherwise it clamps the coordinate and the agent
stays put in that direction), and for every action either environment offers
as valid the clamp is inert, so the transition is the exact one-cell move. -/
theorem C5_nextPosition_clamping (gs : Int) (grid : Position → CellType) (p : Position)
    (a : Action) (hp : inBounds gs p) :
    inBounds gs (SARSAEnvironment.getNextPosition gs p a)
    ∧ (SARSAEnvironment.getNextPosition gs p a = QLearningEnvironment.getNextPosition p a ↔
        inBounds gs (QLearningEnvironment.getNextPosition p a))
    ∧ (a ∈ QLearningEnvironment.getValidActions gs p →
        SARSAEnvironment.getNextPosition gs p a = QLearningEnvironment.getNextPosition p a)
    ∧ (a ∈ SARSAEnvironment.getValidActions gs grid p →
        SARSAEnvironment.getNextPosition gs p a = QLearningEnvironment.getNextPosition p a) := by
  refine ⟨sarsa_nextPosition_inBounds gs p a hp, sarsa_nextPosition_eq_iff gs p a hp, ?_, ?_⟩
  · intro ha
    exact (sarsa_nextPosition_eq_iff gs p a hp).mpr ((mem_qValidActions_iff gs p a hp).mp ha)
  · intro ha
    exact (sarsa_nextPosition_eq_iff gs p a hp).mpr
      ((mem_sarsaValidActions_iff gs grid p a hp).mp ha).1

/-- Witness for C5 on the sample grid at the start cell with the action
right. -/
theorem C5_nextPosition_clamping_witness :
    inBounds sampleConfig.gridSize
        (SARSAEnvironment.getNextPosition sampleConfig.gridSize ⟨0, 0⟩ Action.right)
    ∧ (SARSAEnvironment.getNextPosition sampleConfig.gridSize ⟨0, 0⟩ Action.right
          = QLearningEnvironment.getNextPosition ⟨0, 0⟩ Action.right ↔
        inBounds sampleConfig.gridSize (QLearningEnvironment.getNextPosition ⟨0, 0⟩ Action.right))
    ∧ (Action.right ∈ QLearningEnvironment.getValidActions sampleConfig.gridSize ⟨0, 0⟩ →
        SARSAEnvironment.getNextPosition sampleConfig.gridSize ⟨0, 0⟩ Action.right
          = QLearningEnvironment.getNextPosition ⟨0, 0⟩ Action.right)
    ∧ (Action.right ∈ SARSAEnvironment.getValidActions sampleConfig.gridSize
          (SARSAEnvironment.initializeGrid sampleConfig) ⟨0, 0⟩ →
        SARSAEnvironment.getNextPosition sampleConfig.gridSize ⟨0, 0⟩ Action.right
          = QLearningEnvironment.getNextPosition ⟨0, 0⟩ Action.right) :=
  C5_nextPosition_clamping sampleConfig.gridSize
    (SARSAEnvironment.initializeGrid sampleConfig) ⟨0, 0⟩ Action.right (by decide)

/-- Counterexample to C5 as stated: at the in-bounds corner (0,0) of an
8-by-8 grid the SARSA transition for up is silently clamped to (0,0) rather
than moving one cell to (-1,0) as the unclamped Q-Learning transition does,
and chooseInitialAction can commit exactly that boundary-crossing action. -/
theorem C5_counterexample :
    SARSAEnvironment.getNextPosition 8 ⟨0, 0⟩ Action.up = ⟨0, 0⟩
    ∧ QLearningEnvironment.getNextPosition ⟨0, 0⟩ Action.up = ⟨-1, 0⟩
    ∧ SARSAEnvironment.getNextPosition 8 ⟨0, 0⟩ Action.up
        ≠ QLearningEnvironment.getNextPosition ⟨0, 0⟩ Action.up
    ∧ SARSAEnvironment.chooseInitialAction 0 = Action.up := by
  refine ⟨?_, ?_, ?_, ?_⟩ <;> decide

/-- C7: from an in-bounds position, no action either environment offers as
valid has a destination outside the grid: the unclamped one-cell destination
is in bounds, and for SARSA the clamped transition lands in bounds too. -/
theorem C7_validActions_in_bounds (gs : Int) (grid : Position → CellType) (p : Position)
    (a : Action) (hp : inBounds gs p) :
    (a ∈ QLearningEnvironment.getValidActions gs p →
      inBounds gs (QLearningEnvironment.getNextPosition p a))
    ∧ (a ∈ SARSAEnvironment.getValidActions gs grid p →
      inBounds gs (QLearningEnvironment.getNextPosition p a)
        ∧ inBounds gs (SARSAEnvironment.getNextPosition gs p a)) := by
  constructor
  · intro ha
    exact (mem_qValidActions_iff gs p a hp).mp ha
  · intro ha
    exact ⟨((mem_sarsaValidActions_iff gs grid p a hp).mp ha).1,
      sarsa_nextPosition_inBounds gs p a hp⟩

/-- Witness for C7 on the sample grid at the start cell with the action
down. -/
theorem C7_validActions_in_bounds_witness :
    (Action.down ∈ QLearningEnvironment.getValidActions sampleConfig.gridSize ⟨0, 0⟩ →
      inBounds sampleConfig.gridSize (QLearningEnvironment.getNextPosition ⟨0, 0⟩ Action.down))
    ∧ (Action.down ∈ SARSAEnvironment.getValidActions sampleConfig.gridSize
          (SARSAEnvironment.initializeGrid sampleConfig) ⟨0, 0⟩ →
      inBounds sampleConfig.gridSize (QLearningEnvironment.getNextPosition ⟨0, 0⟩ Action.down)
        ∧ inBounds sampleConfig.gridSize
            (SARSAEnvironment.getNextPosition sampleConfig.gridSize ⟨0, 0⟩ Action.down)) :=
  C7_validActions_in_bounds sampleConfig.gridSize
    (SARSAEnvironment.initializeGrid sampleConfig) ⟨0, 0⟩ Action.down (by decide)

/-- The initialized SARSA grid classifies a cell goal-or-hazard exactly when
the position is the configured goal or one of the configured hazards. -/
theorem sarsa_cellType_goal_or_hazard (c : QLearningConfig) (p : Position) :
    (SARSAEnvironment.initializeGrid c p = CellType.goal
        ∨ SARSAEnvironment.initializeGrid c p = CellType.hazard) ↔
      (p = c.goalPosition ∨ p ∈ c.hazardPositions) := by
  unfold SARSAEnvironment.initializeGrid SARSAEnvironment.cellTypeOf
  split_ifs with hh hg hs <;> simp_all

/-- A SARSA step yields no result exactly when the current cell is
classified goal or hazard. -/
theorem sarsa_step_none_iff (env : SARSAEnvironment) (r1 : ℝ) (idx : Nat) :
    (SARSAEnvironment.step env r1 idx).1 = none ↔
      (env.grid env.agent.currentPosition = CellType.goal
        ∨ env.grid env.agent.currentPosition = CellType.hazard) := by
  rcases hcell : env.grid env.agent.currentPosition with _ | _ | _ | _ <;>
    simp [SARSAEnvironment.step, hcell]

/-- A terminal SARSA step leaves the whole environment state unchanged. -/
theorem sarsa_step_frame (env : SARSAEnvironment) (r1 : ℝ) (idx : Nat) :
    (SARSAEnvironment.step env r1 idx).1 = none →
      (SARSAEnvironment.step env r1 idx).2 = env := by
  rcases hcell : env.grid env.agent.currentPosition with _ | _ | _ | _ <;>
    simp [SARSAEnvironment.step, hcell]

/-- A non-terminal SARSA step returns a step record. -/
theorem sarsa_step_some (env : SARSAEnvironment) (r1 : ℝ) (idx : Nat) :
    ¬(env.grid env.agent.currentPosition = CellType.goal
        ∨ env.grid env.agent.currentPosition = CellType.hazard) →
      ∃ res, (SARSAEnvironment.step env r1 idx).1 = some res := by
  intro h
  cases hstep : (SARSAEnvironment.step env r1 idx).1 with
  | none => exact absurd ((sarsa_step_none_iff env r1 idx).mp hstep) h
  | some res => exact ⟨res, rfl⟩

/-- A Q-Learning step yields no result exactly when the agent sits on the
goal or on a configured hazard. -/
theorem q_step_none_iff (env : QLearningEnvironment) (r1 : ℝ) (idx : Nat) :
    (QLearningEnvironment.step env r1 idx).1 = none ↔
      (env.currentPosition = env.config.goalPosition
        ∨ env.currentPosition ∈ env.config.hazardPositions) := by
  by_cases hg : env.currentPosition = env.config.goalPosition
  · simp [QLearningEnvironment.step, hg]
  · by_cases hh : env.currentPosition ∈ env.config.hazardPositions
    · simp [QLearningEnvironment.step, hg, hh]
    · simp [QLearningEnvironment.step, hg, hh]

/-- A terminal Q-Learning step leaves the whole environment state
unchanged. -/
theorem q_step_frame (env : QLearningEnvironment) (r1 : ℝ) (idx : Nat) :
    (QLearningEnvironment.step env r1 idx).1 = none →
      (QLearningEnvironment.step env r1 idx).2 = env := by
  by_cases hg : env.currentPosition = env.config.goalPosition
  · simp [QLearningEnvironment.step, hg]
  · by_cases hh : env.currentPosition ∈ env.config.hazardPositions
    · simp [QLearningEnvironment.step, hg, hh]
    · simp [QLearningEnvironment.step, hg, hh]

/-- A non-terminal Q-Learning step returns a step record. -/
theorem q_step_some (env : QLearningEnvironment) (r1 : ℝ) (idx : Nat) :
    ¬(env.currentPosition = env.config.goalPosition
        ∨ env.currentPosition ∈ env.config.hazardPositions) →
      ∃ res, (QLearningEnvironment.step env r1 idx).1 = some res := by
  intro h
  cases hstep : (QLearningEnvironment.step env r1 idx).1 with
  | none => exact absurd ((q_step_none_iff env r1 idx).mp hstep) h
  | some res => exact ⟨res, rfl⟩

/-- On a grid of size at least two, every in-bounds position has at least
one boundary-valid action. -/
theorem qValidActions_ne_nil (gs : Int) (p : Position) (hgs : 2 ≤ gs)
    (hp : inBounds gs p) : QLearningEnvironment.getValidActions gs p ≠ [] := by
  intro hnil
  have hup := mem_qValidActions_iff gs p Action.up hp
  have hdown := mem_qValidActions_iff gs p Action.down hp
  rw [hnil] at hup hdown
  simp only [List.not_mem_nil, false_iff] at hup hdown
  obtain ⟨h1, h2, h3, h4⟩ := hp
  simp only [QLearningEnvironment.getNextPosition, inBounds] at hup hdown
  omega

/-- C6: in both environments step yields no result exactly when the agent
sits on the goal or on a hazard; in that terminal case the whole
environment state — grid, value table, position, running reward statistics —
is unchanged; in every non-terminal case step returns a step record (and the
hypotheses on grid size and position guarantee the Q-Learning action list is
nonempty, so the choice the source would make is well defined). -/
theorem C6_step_terminal (qenv : QLearningEnvironment) (senv : SARSAEnvironment)
    (r1 : ℝ) (idx : Nat) (r2 : ℝ) (idx2 : Nat)
    (hgs : 2 ≤ qenv.config.gridSize)
    (hpos : inBounds qenv.config.gridSize qenv.currentPosition)
    (hs : senv.grid = SARSAEnvironment.initializeGrid senv.config) :
    ((QLearningEnvironment.step qenv r1 idx).1 = none ↔
      (qenv.currentPosition = qenv.config.goalPosition
        ∨ qenv.currentPosition ∈ qenv.config.hazardPositions))
    ∧ ((QLearningEnvironment.step qenv r1 idx).1 = none →
        (QLearningEnvironment.step qenv r1 idx).2 = qenv)
    ∧ (¬(qenv.currentPosition = qenv.config.goalPosition
          ∨ qenv.currentPosition ∈ qenv.config.hazardPositions) →
        ∃ res, (QLearningEnvironment.step qenv r1 idx).1 = some res)
    ∧ QLearningEnvironment.getValidActions qenv.config.gridSize qenv.currentPosition ≠ []
    ∧ ((SARSAEnvironment.step senv r2 idx2).1 = none ↔
      (senv.agent.currentPosition = senv.config.goalPosition
        ∨ senv.agent.currentPosition ∈ senv.config.hazardPositions))
    ∧ ((SARSAEnvironment.step senv r2 idx2).1 = none →
        (SARSAEnvironment.step senv r2 idx2).2 = senv)
    ∧ (¬(senv.agent.currentPosition = senv.config.goalPosition
          ∨ senv.agent.currentPosition ∈ senv.config.hazardPositions) →
        ∃ res, (SARSAEnvironment.step senv r2 idx2).1 = some res) := by
  refine ⟨q_step_none_iff qenv r1 idx, q_step_frame qenv r1 idx, q_step_some qenv r1 idx,
    qValidActions_ne_nil qenv.config.gridSize qenv.currentPosition hgs hpos, ?_,
    sarsa_step_frame senv r2 idx2, ?_⟩
  · rw [sarsa_step_none_iff senv r2 idx2, hs]
    exact sarsa_cellType_goal_or_hazard senv.config senv.agent.currentPosition
  · intro hnt
    apply sarsa_step_some senv r2 idx2
    rw [hs]
    intro hor
    exact hnt ((sarsa_cellType_goal_or_hazard senv.config senv.agent.currentPosition).mp hor)

/-- Witness for C6 on the concrete sample environments sitting at the start
cell. -/
theorem C6_step_terminal_witness :
    ((QLearningEnvironment.step sampleQEnv 1 0).1 = none ↔
      (sampleQEnv.currentPosition = sampleQEnv.config.goalPosition
        ∨ sampleQEnv.currentPosition ∈ sampleQEnv.config.hazardPositions))
    ∧ ((QLearningEnvironment.step sampleQEnv 1 0).1 = none →
        (QLearningEnvironment.step sampleQEnv 1 0).2 = sampleQEnv)
    ∧ (¬(sampleQEnv.currentPosition = sampleQEnv.config.goalPosition
          ∨ sampleQEnv.currentPosition ∈ sampleQEnv.config.hazardPositions) →
        ∃ res, (QLearningEnvironment.step sampleQEnv 1 0).1 = some res)
    ∧ QLearningEnvironment.getValidActions sampleQEnv.config.gridSize
        sampleQEnv.currentPosition ≠ []
    ∧ ((SARSAEnvironment.step sampleSarsaEnv 1 0).1 = none ↔
      (sampleSarsaEnv.agent.currentPosition = sampleSarsaEnv.config.goalPosition
        ∨ sampleSarsaEnv.agent.currentPosition ∈ sampleSarsaEnv.config.hazardPositions))
    ∧ ((SARSAEnvironment.step sampleSarsaEnv 1 0).1 = none →
        (SARSAEnvironment.step sampleSarsaEnv 1 0).2 = sampleSarsaEnv)
    ∧ (¬(sampleSarsaEnv.agent.currentPosition = sampleSarsaEnv.config.goalPosition
          ∨ sampleSarsaEnv.agent.currentPosition ∈ sampleSarsaEnv.config.hazardPositions) →
        ∃ res, (SARSAEnvironment.step sampleSarsaEnv 1 0).1 = some res) :=
  C6_step_terminal sampleQEnv sampleSarsaEnv 1 0 1 0 (by decide) (by decide) rfl

/-- C8 (amended): the heuristic term is zero when the flag is off; when it
is on, it equals the distance improvement toward the goal under the
configured metric times the effective weight, where the effective weight is
the configured heuristicWeight whenever that is present and nonzero and
falls back to 0.1 otherwise (the JavaScript or-default); the three metrics
are the manhattan, euclidean and chebyshev formulas; in particular with
manhattan metric and weight one, moving one cell strictly closer to the
goal adds exactly plus one and moving one cell away adds exactly minus
one. -/
theorem C8_heuristic_reward (c : QLearningConfig) (s d : Position) :
    (c.useDirectionalHeuristics.getD false = false →
      QLearningEnvironment.calculateHeuristicReward c s d = 0)
    ∧ (c.useDirectionalHeuristics.getD false = true →
      QLearningEnvironment.calculateHeuristicReward c s d =
        (QLearningEnvironment.calculateDistance c s c.goalPosition
          - QLearningEnvironment.calculateDistance c d c.goalPosition)
          * jsOrReal c.heuristicWeight 0.1)
    ∧ (∀ w : ℝ, c.heuristicWeight = some w → w ≠ 0 → jsOrReal c.heuristicWeight 0.1 = w)
    ∧ (c.heuristicMethod.getD HeuristicMethod.manhattan = HeuristicMethod.manhattan →
      QLearningEnvironment.calculateDistance c s d
        = ((|s.row - d.row| + |s.col - d.col| : Int) : ℝ))
    ∧ (c.heuristicMethod.getD HeuristicMethod.manhattan = HeuristicMethod.euclidean →
      QLearningEnvironment.calculateDistance c s d
        = Real.sqrt ((((s.row - d.row : Int)) : ℝ) ^ 2 + (((s.col - d.col : Int)) : ℝ) ^ 2))
    ∧ (c.heuristicMethod.getD HeuristicMethod.manhattan = HeuristicMethod.chebyshev →
      QLearningEnvironment.calculateDistance c s d
        = ((max |s.row - d.row| |s.col - d.col| : Int) : ℝ))
    ∧ (c.useDirectionalHeuristics.getD false = true →
      c.heuristicMethod = some HeuristicMethod.manhattan →
      c.heuristicWeight = some 1 →
      ((|s.row - c.goalPosition.row| + |s.col - c.goalPosition.col| : Int)
          = (|d.row - c.goalPosition.row| + |d.col - c.goalPosition.col| : Int) + 1 →
        QLearningEnvironment.calculateHeuristicReward c s d = 1)
      ∧ ((|d.row - c.goalPosition.row| + |d.col - c.goalPosition.col| : Int)
          = (|s.row - c.goalPosition.row| + |s.col - c.goalPosition.col| : Int) + 1 →
        QLearningEnvironment.calculateHeuristicReward c s d = -1)) := by
  refine ⟨?_, ?_, ?_, ?_, ?_, ?_, ?_⟩
  · intro h
    simp [QLearningEnvironment.calculateHeuristicReward, h]
  · intro h
    simp [QLearningEnvironment.calculateHeuristicReward, h]
  · intro w hw hwz
    simp [jsOrReal, hw, hwz]
  · intro h
    simp [QLearningEnvironment.calculateDistance, h]
  · intro h
    simp [QLearningEnvironment.calculateDistance, h]
  · intro h
    simp [QLearningEnvironment.calculateDistance, h]
  · intro hEn hM hW
    constructor <;> intro hd <;>
      simp only [QLearningEnvironment.calculateHeuristicReward,
        QLearningEnvironment.calculateDistance, hEn, hM, hW, jsOrReal, Option.getD_some,
        Bool.true_eq_false, if_false, one_ne_zero, ite_false] <;>
      rw [hd] <;> push_cast <;> ring

/-- Witness for C8 at two concrete positions under the sample heuristic
configuration. -/
theorem C8_heuristic_reward_witness :
    (sampleHeuristicConfig.useDirectionalHeuristics.getD false = false →
      QLearningEnvironment.calculateHeuristicReward sampleHeuristicConfig ⟨0, 0⟩ ⟨0, 1⟩ = 0)
    ∧ (sampleHeuristicConfig.useDirectionalHeuristics.getD false = true →
      QLearningEnvironment.calculateHeuristicReward sampleHeuristicConfig ⟨0, 0⟩ ⟨0, 1⟩ =
        (QLearningEnvironment.calculateDistance sampleHeuristicConfig ⟨0, 0⟩
            sampleHeuristicConfig.goalPosition
          - QLearningEnvironment.calculateDistance sampleHeuristicConfig ⟨0, 1⟩
              sampleHeuristicConfig.goalPosition)
          * jsOrReal sampleHeuristicConfig.heuristicWeight 0.1)
    ∧ (∀ w : ℝ, sampleHeuristicConfig.heuristicWeight = some w → w ≠ 0 →
        jsOrReal sampleHeuristicConfig.heuristicWeight 0.1 = w)
    ∧ (sampleHeuristicConfig.heuristicMethod.getD HeuristicMethod.manhattan
          = HeuristicMethod.manhattan →
      QLearningEnvironment.calculateDistance sampleHeuristicConfig ⟨0, 0⟩ ⟨0, 1⟩
        = ((|(0 : Int) - 0| + |(0 : Int) - 1| : Int) : ℝ))
    ∧ (sampleHeuristicConfig.heuristicMethod.getD HeuristicMethod.manhattan
          = HeuristicMethod.euclidean →
      QLearningEnvironment.calculateDistance sampleHeuristicConfig ⟨0, 0⟩ ⟨0, 1⟩
        = Real.sqrt ((((0 - 0 : Int)) : ℝ) ^ 2 + (((0 - 1 : Int)) : ℝ) ^ 2))
    ∧ (sampleHeuristicConfig.heuristicMethod.getD HeuristicMethod.manhattan
          = HeuristicMethod.chebyshev →
      QLearningEnvironment.calculateDistance sampleHeuristicConfig ⟨0, 0⟩ ⟨0, 1⟩
        = ((max |(0 : Int) - 0| |(0 : Int) - 1| : Int) : ℝ))
    ∧ (sampleHeuristicConfig.useDirectionalHeuristics.getD false = true →
      sampleHeuristicConfig.heuristicMethod = some HeuristicMethod.manhattan →
      sampleHeuristicConfig.heuristicWeight = some 1 →
      ((|(0 : Int) - sampleHeuristicConfig.goalPosition.row|
            + |(0 : Int) - sampleHeuristicConfig.goalPosition.col| : Int)
          = (|(0 : Int) - sampleHeuristicConfig.goalPosition.row|
            + |(1 : Int) - sampleHeuristicConfig.goalPosition.col| : Int) + 1 →
        QLearningEnvironment.calculateHeuristicReward sampleHeuristicConfig ⟨0, 0⟩ ⟨0, 1⟩ = 1)
      ∧ ((|(0 : Int) - sampleHeuristicConfig.goalPosition.row|
            + |(1 : Int) - sampleHeuristicConfig.goalPosition.col| : Int)
          = (|(0 : Int) - sampleHeuristicConfig.goalPosition.row|
            + |(0 : Int) - sampleHeuristicConfig.goalPosition.col| : Int) + 1 →
        QLearningEnvironment.calculateHeuristicReward sampleHeuristicConfig ⟨0, 0⟩ ⟨0, 1⟩
          = -1)) :=
  C8_heuristic_reward sampleHeuristicConfig ⟨0, 0⟩ ⟨0, 1⟩

/-- Counterexample to C8 as stated: with the heuristic weight configured as
zero (and manhattan metric, goal at (0,5)), the claim predicts a heuristic
term of zero for the move from (0,0) to (0,1), but the source computes
one tenth, because the or-default turns a zero weight into 0.1. -/
theorem C8_counterexample :
    QLearningEnvironment.calculateHeuristicReward sampleHeuristicConfig ⟨0, 0⟩ ⟨0, 1⟩ = 1 / 10
    ∧ QLearningEnvironment.calculateHeuristicReward sampleHeuristicConfig ⟨0, 0⟩ ⟨0, 1⟩
        ≠ (QLearningEnvironment.calculateDistance sampleHeuristicConfig ⟨0, 0⟩
              sampleHeuristicConfig.goalPosition
            - QLearningEnvironment.calculateDistance sampleHeuristicConfig ⟨0, 1⟩
                sampleHeuristicConfig.goalPosition) * 0 := by
  have h : QLearningEnvironment.calculateHeuristicReward sampleHeuristicConfig ⟨0, 0⟩ ⟨0, 1⟩
      = 1 / 10 := by
    simp only [QLearningEnvironment.calculateHeuristicReward,
      QLearningEnvironment.calculateDistance, sampleHeuristicConfig, sampleConfig, jsOrReal,
      Option.getD_some, Bool.true_eq_false, if_false, ite_false]
    norm_num
  exact ⟨h, by rw [h]; norm_num⟩

/-- C9: with normalization on, the min-max branch emits zero whenever the
updated running range is not strictly positive — in particular on the very
first observation, when both running bounds collapse to the incoming
reward — and the z-score branch emits zero whenever the standard deviation
of the observed reward history is not strictly positive; the division is
guarded in both branches. -/
theorem C9_normalize_guards (c : QLearningConfig) (st : NormState) (r : ℝ)
    (hEn : c.normalizeRewards.getD false = true) :
    (c.normalizationMethod.getD NormalizationMethod.minmax ≠ NormalizationMethod.zscore →
      (runningMax st.maxRewardSeen r - runningMin st.minRewardSeen r ≤ 0 →
        (QLearningEnvironment.normalize c st r).1 = 0)
      ∧ (st.minRewardSeen = none → st.maxRewardSeen = none →
        (QLearningEnvironment.normalize c st r).1 = 0))
    ∧ (c.normalizationMethod.getD NormalizationMethod.minmax = NormalizationMethod.zscore →
      listStddev (st.rewardHistory ++ [r]) ≤ 0 →
      (QLearningEnvironment.normalize c st r).1 = 0) := by
  constructor
  · intro hmeth
    constructor
    · intro hr
      simp only [QLearningEnvironment.normalize, hEn, Bool.true_eq_false, if_false,
        ite_false, if_neg hmeth]
      rw [if_neg (not_lt.mpr hr)]
    · intro hmin hmax
      simp only [QLearningEnvironment.normalize, hEn, Bool.true_eq_false, if_false,
        ite_false, if_neg hmeth, hmin, hmax, runningMin, runningMax]
      rw [if_neg (by simp : ¬(r - r > 0))]
  · intro hmeth hsd
    simp only [QLearningEnvironment.normalize, hEn, Bool.true_eq_false, if_false,
      ite_false, if_pos hmeth]
    rw [if_neg (not_lt.mpr hsd)]

/-- Witness for C9 on a fresh statistics state receiving its first reward
under the sample configuration, whose normalization method is the min-max
default. -/
theorem C9_normalize_guards_witness :
    (sampleConfig.normalizationMethod.getD NormalizationMethod.minmax
        ≠ NormalizationMethod.zscore →
      (runningMax (NormState.mk none none []).maxRewardSeen 1
          - runningMin (NormState.mk none none []).minRewardSeen 1 ≤ 0 →
        (QLearningEnvironment.normalize sampleConfig (NormState.mk none none []) 1).1 = 0)
      ∧ ((NormState.mk none none []).minRewardSeen = none →
        (NormState.mk none none []).maxRewardSeen = none →
        (QLearningEnvironment.normalize sampleConfig (NormState.mk none none []) 1).1 = 0))
    ∧ (sampleConfig.normalizationMethod.getD NormalizationMethod.minmax
        = NormalizationMethod.zscore →
      listStddev ((NormState.mk none none []).rewardHistory ++ [1]) ≤ 0 →
      (QLearningEnvironment.normalize sampleConfig (NormState.mk none none []) 1).1 = 0) :=
  C9_normalize_guards sampleConfig (NormState.mk none none []) 1 rfl

/-- C10: runEpisode reports an averageQChange of zero on every call of
either environment, whatever the configuration, the starting state and the
randomness: the Q-Learning record carries a literal zero and the SARSA
accumulator is never fed, so zero is divided by the step count. -/
theorem C10_averageQChange_zero (qenv : QLearningEnvironment) (senv : SARSAEnvironment)
    (rand rand2 : Nat → ℝ × Nat) (initIdx : Nat) :
    (QLearningEnvironment.runEpisode qenv rand).1.averageQChange = 0
    ∧ (SARSAEnvironment.runEpisode senv initIdx rand2).1.averageQChange = 0 := by
  constructor
  · rfl
  · simp [SARSAEnvironment.runEpisode]

end

end GridRL
